import Mathlib

/-!
Shallow embedding of the city-population CSV filter (`src/main.rs`).

The program reads delimited rows, decodes each into a `PopulationCount`
(city, country, region, optional population), filters by exact city-name
equality (optionally admitting rows with an unknown population), and either
returns the accumulated matches or a `NotFound` condition.  `main` renders
the outcome as printed lines and an exit status.

We model the row stream after the input source has been opened: a list of
raw rows, each an ordered mapping of the four recognized columns to an
optional cell string (a `none` field stands for a column absent from the
input).  File-open failures are represented by the `CliError.Io` case,
which the `main` model consumes.
-/

namespace CityPop

/-- One decoded row (`struct PopulationCount` in the source).  The Rust
`population: Option<u64>` is modelled as `Option Nat` with the `< 2 ^ 64`
range enforced at decode time. -/
structure PopulationCount where
  city : String
  country : String
  region : String
  population : Option Nat
deriving Repr, DecidableEq

/-- A raw input row as handed over by the delimited-text parser: each of the
four recognized columns maps to its cell text, or to `none` when the column
is absent from the row. -/
structure RawRow where
  city : Option String
  country : Option String
  region : Option String
  population : Option String
deriving Repr, DecidableEq

/-- Why a raw row failed to decode into a `PopulationCount`: a required
text column was absent, or a non-empty population cell was not an unsigned
64-bit decimal numeral. -/
inductive DecodeError where
  | missingField
  | badPopulation
deriving Repr, DecidableEq

/-- `enum CliError` in the source.  `Io` carries the rendered message of the
underlying I/O error; `Csv` carries the decode failure. -/
inductive CliError where
  | Io (msg : String)
  | Csv (err : DecodeError)
  | NotFound
deriving Repr, DecidableEq

/-- Value of a decimal digit list read most-significant first. -/
def digitsToNat (cs : List Char) : Nat :=
  cs.foldl (fun n c => n * 10 + (c.toNat - 48)) 0

/-- Parsing of a cell as Rust `u64`: an optional leading `+` sign followed
by at least one decimal digit, with the value below `2 ^ 64`. -/
def parseU64 (s : String) : Option Nat :=
  let cs :=
    match s.data with
    | '+' :: rest => rest
    | other => other
  if !cs.isEmpty && cs.all Char.isDigit then
    let n := digitsToNat cs
    if n < 2 ^ 64 then some n else none
  else none

/-- Decoding of the `Population` cell into `Option<u64>`: an absent column
or an empty cell is a valid "unknown" population; any other cell must parse
as `u64`. -/
def decodePopulation : Option String → Except DecodeError (Option Nat)
  | none => Except.ok none
  | some s =>
    if s = "" then Except.ok none
    else
      match parseU64 s with
      | some n => Except.ok (some n)
      | none => Except.error DecodeError.badPopulation

/-- Deserialization of one raw row into a `PopulationCount`: the `City`,
`Country` and `Region` cells must be present as text, and the `Population`
cell decodes via `decodePopulation`. -/
def decodeRow (r : RawRow) : Except DecodeError PopulationCount :=
  match r.city, r.country, r.region with
  | some c, some k, some g =>
    match decodePopulation r.population with
    | Except.ok p => Except.ok ⟨c, k, g, p⟩
    | Except.error e => Except.error e
  | _, _, _ => Except.error DecodeError.missingField

/-- Decoding of the whole row sequence, stopping at the first failure. -/
def decodeRows : List RawRow → Except DecodeError (List PopulationCount)
  | [] => Except.ok []
  | r :: rest =>
    match decodeRow r with
    | Except.error e => Except.error e
    | Except.ok row =>
      match decodeRows rest with
      | Except.error e => Except.error e
      | Except.ok recs => Except.ok (row :: recs)

/-- The loop body of `search`: the row is pushed exactly when this predicate
holds, mirroring the branch structure of the Rust loop. -/
def acceptRow (city : String) (includeUnknowns : Bool) (row : PopulationCount) : Bool :=
  if includeUnknowns && (row.city == city) then true
  else
    match row.population with
    | none => false
    | some _ => row.city == city

/-- The `for row in rdr.deserialize()` loop of `search`, with the `found`
accumulator made explicit.  Each raw row is decoded (a failure aborts with
a `Csv` error, as `row?` does) and pushed when accepted. -/
def searchLoop (city : String) (includeUnknowns : Bool) :
    List RawRow → List PopulationCount → Except CliError (List PopulationCount)
  | [], found => Except.ok found
  | r :: rest, found =>
    match decodeRow r with
    | Except.error e => Except.error (CliError.Csv e)
    | Except.ok row =>
      if includeUnknowns && (row.city == city) then
        searchLoop city includeUnknowns rest (found ++ [row])
      else
        match row.population with
        | none => searchLoop city includeUnknowns rest found
        | some _ =>
          if row.city == city then
            searchLoop city includeUnknowns rest (found ++ [row])
          else
            searchLoop city includeUnknowns rest found

/-- `fn search` from the source, over the row sequence produced by the
input stream: run the loop from an empty accumulator, then turn an empty
accumulator into the `NotFound` error. -/
def search (rows : List RawRow) (city : String) (includeUnknowns : Bool) :
    Except CliError (List PopulationCount) :=
  match searchLoop city includeUnknowns rows [] with
  | Except.error e => Except.error e
  | Except.ok found =>
    if found.isEmpty then Except.error CliError.NotFound
    else Except.ok found

/-- The `Display` rendering of a `CliError` (`impl fmt::Display for
CliError`).  The `Io` and `Csv` cases delegate to the underlying error: the
`Io` message is the carried string, and the `Csv` message is the csv
crate's rendering of the decode failure, which we leave as a fixed
stand-in text since only its presence is observable in the model. -/
def cliErrorMessage : CliError → String
  | CliError.Io msg => msg
  | CliError.Csv _ => "CSV deserialize error"
  | CliError.NotFound => "No matching cities with a population were found."

/-- One printed line of `main`:
`"{city}, {region}, {country}: {population or Unknown Population}"`. -/
def formatLine (p : PopulationCount) : String :=
  p.city ++ ", " ++ p.region ++ ", " ++ p.country ++ ": " ++
    (match p.population with
     | some i => toString i
     | none => "Unknown Population")

/-- The observable outcome of one process run: exit status, the error
message printed to stderr (if any), and the lines printed to stdout. -/
structure ProcResult where
  exitCode : Nat
  errMessage : Option String
  outLines : List String
deriving Repr, DecidableEq

/-- The `match search(..)` at the end of `fn main`: a quiet `NotFound`
exits silently with status 1; any other error prints its message and exits
with status 1 (the `fatal!` macro); a success prints one formatted line per
record and exits with status 0. -/
def mainOutcome (res : Except CliError (List PopulationCount)) (quiet : Bool) :
    ProcResult :=
  match res with
  | Except.error CliError.NotFound =>
    if quiet then ⟨1, none, []⟩
    else ⟨1, some (cliErrorMessage CliError.NotFound), []⟩
  | Except.error err => ⟨1, some (cliErrorMessage err), []⟩
  | Except.ok populated => ⟨0, none, populated.map formatLine⟩

/-- Sample row: Paris in Île-de-France, population present. -/
def rawParisFR : RawRow :=
  ⟨some "Paris", some "France", some "Île-de-France", some "2140526"⟩

/-- Sample row: Paris in Texas, population cell empty. -/
def rawParisTX : RawRow :=
  ⟨some "Paris", some "France", some "Texas", some ""⟩

/-- Sample row with a non-numeric population cell. -/
def rawBadPop : RawRow :=
  ⟨some "Springfield", some "USA", some "Illinois", some "abc"⟩

/-- Sample row with a required column absent. -/
def rawMissing : RawRow :=
  ⟨none, some "Nowhere", some "Nowhere", some "1"⟩

/-- Decoding of `rawParisFR`. -/
def recParisFR : PopulationCount :=
  ⟨"Paris", "France", "Île-de-France", some 2140526⟩

/-- Decoding of `rawParisTX`. -/
def recParisTX : PopulationCount :=
  ⟨"Paris", "France", "Texas", none⟩

/-- The three-way branch of the loop body collapses to a push guarded by
`acceptRow`. -/
lemma searchLoop_cons_ok {r : RawRow} {row : PopulationCount}
    (city : String) (inc : Bool) (rest : List RawRow)
    (found : List PopulationCount) (hrow : decodeRow r = Except.ok row) :
    searchLoop city inc (r :: rest) found =
      searchLoop city inc rest
        (if acceptRow city inc row then found ++ [row] else found) := by
  simp only [searchLoop, hrow, acceptRow]
  by_cases h1 : inc && (row.city == city)
  · simp [h1]
  · simp only [h1, Bool.false_eq_true, if_false]
    cases hp : row.population with
    | none => simp
    | some n =>
      by_cases h2 : row.city == city
      · simp [h2]
      · simp [h2]

/-- The loop computes the decode of the whole row sequence followed by a
filter with `acceptRow`, appended to the accumulator. -/
lemma searchLoop_decode (city : String) (inc : Bool) :
    ∀ (rows : List RawRow) (found : List PopulationCount),
      searchLoop city inc rows found =
        match decodeRows rows with
        | Except.error e => Except.error (CliError.Csv e)
        | Except.ok recs => Except.ok (found ++ recs.filter (acceptRow city inc))
  | [], found => by simp [searchLoop, decodeRows]
  | r :: rest, found => by
    cases hrow : decodeRow r with
    | error e => simp [searchLoop, decodeRows, hrow]
    | ok row =>
      rw [searchLoop_cons_ok city inc rest found hrow,
        searchLoop_decode city inc rest]
      simp only [decodeRows, hrow]
      cases hrest : decodeRows rest with
      | error e => simp
      | ok recs =>
        simp only [List.filter_cons]
        by_cases hacc : acceptRow city inc row
        · simp [hacc]
        · simp [hacc]

/-- When every row decodes, `search` returns the filtered records, or the
`NotFound` error when the filter is empty. -/
lemma search_char (rows : List RawRow) (city : String) (inc : Bool)
    (recs : List PopulationCount) (hdec : decodeRows rows = Except.ok recs) :
    search rows city inc =
      if (recs.filter (acceptRow city inc)).isEmpty then
        Except.error CliError.NotFound
      else Except.ok (recs.filter (acceptRow city inc)) := by
  unfold search
  rw [searchLoop_decode city inc rows [], hdec]
  simp

/-- When decoding the row sequence fails, `search` propagates the failure
as a `Csv` error. -/
lemma search_err (rows : List RawRow) (city : String) (inc : Bool)
    (e : DecodeError) (hdec : decodeRows rows = Except.error e) :
    search rows city inc = Except.error (CliError.Csv e) := by
  unfold search
  rw [searchLoop_decode city inc rows [], hdec]

/-- A decode failure after a cleanly-decoding prelude fails the decode of
the whole sequence with that failure, whatever follows it. -/
lemma decodeRows_append_err (pre : List RawRow) (precs : List PopulationCount)
    (bad : RawRow) (suf : List RawRow) (e : DecodeError)
    (hpre : decodeRows pre = Except.ok precs)
    (hbad : decodeRow bad = Except.error e) :
    decodeRows (pre ++ bad :: suf) = Except.error e := by
  induction pre generalizing precs with
  | nil => simp [decodeRows, hbad]
  | cons r rest ih =>
    cases hr : decodeRow r with
    | error e2 => simp [decodeRows, hr] at hpre
    | ok row =>
      simp only [decodeRows, hr] at hpre
      simp only [List.cons_append, decodeRows, hr]
      cases hrest : decodeRows rest with
      | error e2 => rw [hrest] at hpre; simp at hpre
      | ok rs =>
        simp only [List.append_eq]
        rw [ih rs hrest]

/-- With `includeUnknowns` false, a record is accepted exactly when its
population is present and its city equals the target. -/
lemma acceptRow_false_iff (city : String) (r : PopulationCount) :
    acceptRow city false r = true ↔
      r.population.isSome = true ∧ r.city = city := by
  unfold acceptRow
  cases hp : r.population <;> simp

/-- With `includeUnknowns` true, a record is accepted exactly when its city
equals the target. -/
lemma acceptRow_true_iff (city : String) (r : PopulationCount) :
    acceptRow city true r = true ↔ r.city = city := by
  unfold acceptRow
  by_cases hc : r.city == city
  · simp only [hc, Bool.and_true, Bool.true_and, if_true, true_iff]
    exact eq_of_beq hc
  · have hne : ¬r.city = city := fun h => hc (beq_iff_eq.mpr h)
    cases hp : r.population <;> simp [hc, hne]

/-- C1: with `includeUnknownPopulation = false`, a record appears in the
returned `ResultSet` iff its population field is present and its city field
equals the target city under exact string equality; records with an absent
population are never in the result even when their city matches. -/
theorem search_false_membership (rows : List RawRow) (city : String)
    (recs res : List PopulationCount)
    (hdec : decodeRows rows = Except.ok recs)
    (hres : search rows city false = Except.ok res) :
    ∀ r : PopulationCount,
      r ∈ res ↔ r ∈ recs ∧ r.population.isSome = true ∧ r.city = city := by
  rw [search_char rows city false recs hdec] at hres
  by_cases he : (recs.filter (acceptRow city false)).isEmpty
  · rw [if_pos he] at hres
    exact absurd hres (by simp)
  · rw [if_neg he] at hres
    injection hres with h
    intro r
    rw [← h, List.mem_filter, acceptRow_false_iff]

/-- Witness for C1 at the two Paris rows: the unknown-population Texas row
is excluded from the false-mode result despite its matching city. -/
theorem search_false_membership_w :
    recParisTX ∈ [recParisFR] ↔
      recParisTX ∈ [recParisFR, recParisTX] ∧
        recParisTX.population.isSome = true ∧ recParisTX.city = "Paris" :=
  search_false_membership [rawParisFR, rawParisTX] "Paris"
    [recParisFR, recParisTX] [recParisFR] rfl rfl recParisTX

/-- C2: with `includeUnknownPopulation = true`, a record appears in the
returned `ResultSet` iff its city field equals the target city, whether or
not its population field is present. -/
theorem search_true_membership (rows : List RawRow) (city : String)
    (recs res : List PopulationCount)
    (hdec : decodeRows rows = Except.ok recs)
    (hres : search rows city true = Except.ok res) :
    ∀ r : PopulationCount, r ∈ res ↔ r ∈ recs ∧ r.city = city := by
  rw [search_char rows city true recs hdec] at hres
  by_cases he : (recs.filter (acceptRow city true)).isEmpty
  · rw [if_pos he] at hres
    exact absurd hres (by simp)
  · rw [if_neg he] at hres
    injection hres with h
    intro r
    rw [← h, List.mem_filter, acceptRow_true_iff]

/-- Witness for C2 at the two Paris rows: the unknown-population Texas row
is included in the true-mode result because its city matches. -/
theorem search_true_membership_w :
    recParisTX ∈ [recParisFR, recParisTX] ↔
      recParisTX ∈ [recParisFR, recParisTX] ∧ recParisTX.city = "Paris" :=
  search_true_membership [rawParisFR, rawParisTX] "Paris"
    [recParisFR, recParisTX] [recParisFR, recParisTX] rfl rfl recParisTX

/-- C3: when the first undecodable row follows a cleanly-decoding prelude,
`search` returns the decode failure as a `Csv` error and no `ResultSet` at
all — whatever the prelude matched and whatever rows follow. -/
theorem search_abort_on_decode_error (pre : List RawRow) (bad : RawRow)
    (suf : List RawRow) (city : String) (inc : Bool)
    (precs : List PopulationCount) (e : DecodeError)
    (hpre : decodeRows pre = Except.ok precs)
    (hbad : decodeRow bad = Except.error e) :
    search (pre ++ bad :: suf) city inc = Except.error (CliError.Csv e) :=
  search_err (pre ++ bad :: suf) city inc e
    (decodeRows_append_err pre precs bad suf e hpre hbad)

/-- Witness for C3: a matching first row, then a row whose population cell
is the text "abc", then a row with a missing column; the scan yields the
population decode failure, not a partial result. -/
theorem search_abort_on_decode_error_w :
    search [rawParisFR, rawBadPop, rawMissing] "Paris" true =
      Except.error (CliError.Csv DecodeError.badPopulation) :=
  search_abort_on_decode_error [rawParisFR] rawBadPop [rawMissing] "Paris"
    true [recParisFR] DecodeError.badPopulation rfl rfl

/-- C4: when every row decodes, `search` fails with `NotFound` exactly when
the accumulated accepted sequence is empty and otherwise returns that
sequence; in particular a header-only input (zero data rows) always yields
`NotFound`. -/
theorem search_exhaustion (rows : List RawRow) (city : String) (inc : Bool)
    (recs : List PopulationCount)
    (hdec : decodeRows rows = Except.ok recs) :
    (search rows city inc =
      if recs.filter (acceptRow city inc) = [] then
        Except.error CliError.NotFound
      else Except.ok (recs.filter (acceptRow city inc)))
    ∧ search ([] : List RawRow) city inc = Except.error CliError.NotFound := by
  constructor
  · rw [search_char rows city inc recs hdec]
    by_cases he : recs.filter (acceptRow city inc) = []
    · simp [he]
    · rw [if_neg he, if_neg (by simpa [List.isEmpty_iff] using he)]
  · rfl

/-- Witness for C4: the target "Atlantis" matches no row, so the scan of
the two Paris rows and the scan of the empty row list both yield the
`NotFound` condition. -/
theorem search_exhaustion_w :
    (search [rawParisFR, rawParisTX] "Atlantis" false =
      if [recParisFR, recParisTX].filter (acceptRow "Atlantis" false) = [] then
        Except.error CliError.NotFound
      else Except.ok ([recParisFR, recParisTX].filter (acceptRow "Atlantis" false)))
    ∧ search ([] : List RawRow) "Atlantis" false =
        Except.error CliError.NotFound :=
  search_exhaustion [rawParisFR, rawParisTX] "Atlantis" false
    [recParisFR, recParisTX] rfl

/-- C5: a successful `search` returns exactly the accepted records filtered
from the decoded input, hence a subsequence of the decoded rows in their
original relative order, with no reordering. -/
theorem search_order (rows : List RawRow) (city : String) (inc : Bool)
    (recs res : List PopulationCount)
    (hdec : decodeRows rows = Except.ok recs)
    (hres : search rows city inc = Except.ok res) :
    res = recs.filter (acceptRow city inc) ∧ List.Sublist res recs := by
  rw [search_char rows city inc recs hdec] at hres
  by_cases he : (recs.filter (acceptRow city inc)).isEmpty
  · rw [if_pos he] at hres
    exact absurd hres (by simp)
  · rw [if_neg he] at hres
    injection hres with h
    exact ⟨h.symm, h ▸ List.filter_sublist recs⟩

/-- Witness for C5 at the two Paris rows in false mode. -/
theorem search_order_w :
    [recParisFR] = [recParisFR, recParisTX].filter (acceptRow "Paris" false)
    ∧ List.Sublist [recParisFR] [recParisFR, recParisTX] :=
  search_order [rawParisFR, rawParisTX] "Paris" false
    [recParisFR, recParisTX] [recParisFR] rfl rfl

/-- C6: the filter is deterministic — two runs of `search` on the same row
sequence, target city and flag produce identical outcomes, the same record
sequence on success or the same error on failure. -/
theorem search_deterministic (rows : List RawRow) (city : String)
    (inc : Bool) (out1 out2 : Except CliError (List PopulationCount))
    (h1 : search rows city inc = out1) (h2 : search rows city inc = out2) :
    out1 = out2 := by
  rw [← h1, ← h2]

/-- Witness for C6: two runs on the two Paris rows agree. -/
theorem search_deterministic_w :
    (Except.ok [recParisFR] : Except CliError (List PopulationCount)) =
      Except.ok [recParisFR] :=
  search_deterministic [rawParisFR, rawParisTX] "Paris" false
    (Except.ok [recParisFR]) (Except.ok [recParisFR]) rfl rfl

/-- C7: a quiet `NotFound` exits with status 1 and prints no message; a
non-quiet `NotFound` prints exactly "No matching cities with a population
were found." and exits with status 1; I/O and decode errors print an error
message and exit with status 1 regardless of quiet mode; quiet mode never
suppresses the failure status of any error. -/
theorem main_exit_behavior :
    (mainOutcome (Except.error CliError.NotFound) true = ⟨1, none, []⟩)
    ∧ (mainOutcome (Except.error CliError.NotFound) false =
        ⟨1, some "No matching cities with a population were found.", []⟩)
    ∧ (∀ (m : String) (q : Bool),
        mainOutcome (Except.error (CliError.Io m)) q = ⟨1, some m, []⟩)
    ∧ (∀ (e : DecodeError) (q : Bool),
        (mainOutcome (Except.error (CliError.Csv e)) q).exitCode = 1
        ∧ ((mainOutcome (Except.error (CliError.Csv e)) q).errMessage).isSome
            = true)
    ∧ (∀ (e : CliError) (q : Bool),
        (mainOutcome (Except.error e) q).exitCode = 1) := by
  refine ⟨rfl, rfl, fun m q => rfl, fun e q => ⟨rfl, rfl⟩, fun e q => ?_⟩
  cases e <;> cases q <;> rfl

/-- C8: every successful scan prints status 0 and one line per matched
record, in `ResultSet` order, of the form
`"{city}, {region}, {country}: {population}"` with the population rendered
as a decimal integer when present and as "Unknown Population" when
absent. -/
theorem output_format (rows : List RawRow) (city : String) (inc : Bool)
    (res : List PopulationCount) (q : Bool)
    (_hres : search rows city inc = Except.ok res) :
    (mainOutcome (Except.ok res) q).exitCode = 0
    ∧ (mainOutcome (Except.ok res) q).outLines =
        res.map (fun p =>
          p.city ++ ", " ++ p.region ++ ", " ++ p.country ++ ": " ++
            match p.population with
            | some i => toString i
            | none => "Unknown Population") :=
  ⟨rfl, rfl⟩

/-- Witness for C8 at the true-mode scan of the two Paris rows, whose
second line renders the unknown population. -/
theorem output_format_w :
    (mainOutcome (Except.ok [recParisFR, recParisTX]) false).exitCode = 0
    ∧ (mainOutcome (Except.ok [recParisFR, recParisTX]) false).outLines =
        [recParisFR, recParisTX].map (fun p =>
          p.city ++ ", " ++ p.region ++ ", " ++ p.country ++ ": " ++
            match p.population with
            | some i => toString i
            | none => "Unknown Population") :=
  output_format [rawParisFR, rawParisTX] "Paris" true
    [recParisFR, recParisTX] false rfl

/-- C9: `search` never succeeds with an empty sequence: every `Ok` outcome
holds at least one record. -/
theorem search_ok_nonempty (rows : List RawRow) (city : String) (inc : Bool)
    (res : List PopulationCount)
    (hres : search rows city inc = Except.ok res) : res ≠ [] := by
  unfold search at hres
  cases hsl : searchLoop city inc rows [] with
  | error e =>
    rw [hsl] at hres
    exact absurd hres (by simp)
  | ok found =>
    rw [hsl] at hres
    by_cases hf : found.isEmpty
    · simp [hf] at hres
    · simp only [hf, Bool.false_eq_true, if_false, Except.ok.injEq] at hres
      subst hres
      intro hnil
      rw [hnil] at hf
      simp at hf

/-- Witness for C9 at the two Paris rows in false mode. -/
theorem search_ok_nonempty_w : ([recParisFR] : List PopulationCount) ≠ [] :=
  search_ok_nonempty [rawParisFR, rawParisTX] "Paris" false [recParisFR] rfl

/-- C10: for a fully-decoding input, a successful false-mode scan forces
the true-mode scan to succeed as well, and the false-mode result is a
subsequence (same relative order) of the true-mode result. -/
theorem search_unknowns_monotone (rows : List RawRow) (city : String)
    (recs resF : List PopulationCount)
    (hdec : decodeRows rows = Except.ok recs)
    (hF : search rows city false = Except.ok resF) :
    search rows city true = Except.ok (recs.filter (acceptRow city true))
    ∧ List.Sublist resF (recs.filter (acceptRow city true)) := by
  rw [search_char rows city false recs hdec] at hF
  by_cases he : (recs.filter (acceptRow city false)).isEmpty
  · rw [if_pos he] at hF
    exact absurd hF (by simp)
  · rw [if_neg he] at hF
    injection hF with h
    have himp : ∀ a, acceptRow city false a → acceptRow city true a := by
      intro a ha
      rw [acceptRow_true_iff]
      exact ((acceptRow_false_iff city a).mp ha).2
    have hsub : List.Sublist (recs.filter (acceptRow city false))
        (recs.filter (acceptRow city true)) :=
      List.monotone_filter_right recs himp
    refine ⟨?_, h ▸ hsub⟩
    rw [search_char rows city true recs hdec, if_neg ?_]
    intro habs
    rw [List.isEmpty_iff] at habs
    rw [habs] at hsub
    have hzero : recs.filter (acceptRow city false) = [] :=
      List.sublist_nil.mp hsub
    simp [hzero] at he

/-- Witness for C10 at the two Paris rows: the false-mode result is a
subsequence of the true-mode result, which also contains the
unknown-population row. -/
theorem search_unknowns_monotone_w :
    search [rawParisFR, rawParisTX] "Paris" true =
      Except.ok ([recParisFR, recParisTX].filter (acceptRow "Paris" true))
    ∧ List.Sublist [recParisFR]
        ([recParisFR, recParisTX].filter (acceptRow "Paris" true)) :=
  search_unknowns_monotone [rawParisFR, rawParisTX] "Paris"
    [recParisFR, recParisTX] [recParisFR] rfl rfl

end CityPop
